import Mathlib

/-!
Verification of the PLC/HMI bridge (app.py and plc_connector.py).

The development shallowly embeds the data model and operations of the
bridge: the tag registry and its offset derivation, the float codec over
paired 16-bit registers, the connector including its fault-swallowing
read operations and the connect-with-retry state machine, one cycle of
the polling loop with its change detector, and the socket write
handlers.  Machine words are modelled as Nat/Int with explicit bounds;
fallible transport calls are modelled as Except values supplied by an
oracle; Python float values appearing in the codec are modelled by their
IEEE-754 32-bit patterns (a Nat below 2 ^ 32), so that packing and
unpacking are exact word arithmetic.
-/

set_option maxRecDepth 40000

namespace SpPlcHmi

/-- The registered Bit tags, transcribed from BIT_TAGS in app.py. -/
def BIT_TAGS : List String := [
  "M3","M7","M13","M14","M15","M16","M17","M20","M21","M22","M33",
  "M9","M100","M101","M102","M103","M200","M201","M202","M203",
  "M204","M205","M206","M207","M208","M209","M210","M211","M212","M213",
  "M214","M215","M216","M217","M218","M219","M220","M221","M222","M223",
  "M224","M225","M226","M227","M228","M229","M230","M231","M232","M233",
  "M234","M235","M236","M237","M238","M239","M240","M241","M242","M243",
  "M244","M245","M246","M247","M248","M300","M301","M305","M309","M313",
  "M317","M321","M325","M329","M400","M401","M405","M409","M413","M417",
  "M423","M448","M449","M500","M501","M505","M509","M513","M517","M521","M525","M529",
  "M533","M537","M541","M545","M549","M553","M557","M563","M569","L100","L101","L102"]

/-- The registered Word tags, transcribed from WORD_TAGS in app.py. -/
def WORD_TAGS : List String := [
  "D302","D304","D306","D310","D312","D314","D316","D318","D320","D322",
  "D324","D326","D328","D330","D332","D334","D336","D338","D340","D342",
  "D344","D346","D348","D350","D352","D354","D356","D358","D360","D362",
  "D364","D366","D368","D410","D412","D414","D416","D418","D420","D422",
  "D424","D426","D428","D430","D432","D434","D436","D438","D440","D442",
  "D444","D446","D448","D450","D452","D454","D456","D458","D460","D462",
  "D464","D466","D468","D500","D512","D520","D530","D550","D552","D554",
  "D610","D612","D614","D616","D618","D620","D622","D624","D626","D628",
  "D630","D632","D634","D636","D638","D640","D642","D644","D646","D648",
  "D650","D652","D654","D656","D658","D660","D662","D664","D666","D668",
  "D802","D803","D812","D813"]

/-- Decimal digit accumulator for parsing a run of digit characters. -/
def toNatAux : List Char → Nat → Option Nat
  | [], acc => some acc
  | c :: rest, acc =>
    if c.isDigit then toNatAux rest (acc * 10 + (c.toNat - 48)) else none

/-- Parse the characters after the first one as a decimal number,
mirroring int(tag[1:]) in Python; none models a raised ValueError. -/
def suffixNat? (tag : String) : Option Nat :=
  match tag.data.drop 1 with
  | [] => none
  | cs => toNatAux cs 0

/-- Numeric suffix of a tag name, as int(tag[1:]) in Python.  Every
registered tag has a digit-only suffix, so the default 0 for an
unparsable suffix is never exercised by the registry. -/
def numericSuffix (tag : String) : Int :=
  ((suffixNat? tag).getD 0 : Nat)

/-- Bit window size, bit_size = 569 - 7 + 1 in poll_plc. -/
def bit_size : Nat := 569 - 7 + 1

/-- Word window size, word_size = 813 - 302 + 1 in poll_plc. -/
def word_size : Nat := 813 - 302 + 1

/-- Offset of a Bit tag in the batch-read window, int(tag[1:]) - 7. -/
def bitIndex (tag : String) : Int := numericSuffix tag - 7

/-- Offset of a Word tag in the batch-read window, int(tag[1:]) - 302. -/
def wordIndex (tag : String) : Int := numericSuffix tag - 302

/-- C4: for every Bit tag the computed offset equals its numeric suffix
minus the window start 7, and the offset mapping is injective: no two
distinct Bit tags share an index.  The offset formula holds, but
injectivity fails: the registry mixes M-prefixed and L-prefixed tags and
the derivation drops the prefix, so the distinct registered tags M100
and L100 both map to index 93 (likewise M101/L101 and M102/L102).  The
spec requires unique offsets per kind; projecting L100 from the M-device
window silently shows M100's value, a slip in the code. -/
theorem C4_bit_offset_collision :
    "M100" ∈ BIT_TAGS ∧ "L100" ∈ BIT_TAGS ∧ "M100" ≠ "L100" ∧
    bitIndex "M100" = 93 ∧ bitIndex "L100" = 93 ∧
    (∀ tag ∈ BIT_TAGS, bitIndex tag = numericSuffix tag - 7) := by
  refine ⟨by decide, by decide, by decide, by decide, by decide, ?_⟩
  intro tag _
  rfl

/-- C5: every configured tag's offset lies in its kind's window
[0, size).  This fails for the Bit tag M3: the window starts at M7, so
bitIndex M3 = 3 - 7 = -4, outside [0, 563); Python's negative indexing
then silently projects M3 from index -4, i.e. the value of device M566.
All other Bit offsets and all Word offsets do lie in their windows, so
M3 is the sole violation. -/
theorem C5_offset_window_violation :
    "M3" ∈ BIT_TAGS ∧ bitIndex "M3" = -4 ∧
    ¬ (0 ≤ bitIndex "M3" ∧ bitIndex "M3" < (bit_size : Int)) ∧
    (BIT_TAGS.all fun tag =>
      tag = "M3" || (decide (0 ≤ bitIndex tag) && decide (bitIndex tag < (bit_size : Int)))) = true ∧
    (WORD_TAGS.all fun tag =>
      decide (0 ≤ wordIndex tag) && decide (wordIndex tag < (word_size : Int))) = true := by
  refine ⟨by decide, by decide, by decide, by decide, by decide⟩

/-!
Transport oracle and connector operations (plc_connector.py).

The underlying pymcprotocol client calls are modelled by an oracle of
Except values: ok carries the list the client returned, error models a
raised transport exception.  Each connector read catches the exception,
triggers a reconnect (recorded as a Bool flag in the second component)
and returns a default value, exactly as the Python code does.
-/

/-- Oracle for the transport calls one poll cycle makes: the batch bit
read over the Bit window, the batch word read over the Word window, and
the single-register word reads used by the float decoder. -/
structure Transport where
  bits : Except String (List Int)
  words : Except String (List Int)
  reg : String → Except String (List Int)

/-- PLCConnector.read_bit: bool(result[0]) if result else False on
success; on a transport fault, reconnect and return False.  The second
component records whether a reconnect was triggered. -/
def read_bit (r : Except String (List Int)) : Bool × Bool :=
  match r with
  | .ok result =>
    (match result with
     | [] => false
     | v :: _ => decide (v ≠ 0), false)
  | .error _ => (false, true)

/-- PLCConnector.read_word: int(result[0]) if result else 0 on success;
on a transport fault, reconnect and return 0. -/
def read_word (r : Except String (List Int)) : Int × Bool :=
  match r with
  | .ok result =>
    (match result with
     | [] => 0
     | v :: _ => v, false)
  | .error _ => (0, true)

/-- PLCConnector.batch_read_bits: map bool over the returned values on
success; on a transport fault, reconnect and return [False] * size. -/
def batch_read_bits (r : Except String (List Int)) (size : Nat) :
    List Bool × Bool :=
  match r with
  | .ok result => (result.map fun v => decide (v ≠ 0), false)
  | .error _ => (List.replicate size false, true)

/-- PLCConnector.batch_read_words: map int over the returned values
(identity on integers) on success; on a transport fault, reconnect and
return [0] * size. -/
def batch_read_words (r : Except String (List Int)) (size : Nat) :
    List Int × Bool :=
  match r with
  | .ok result => (result, false)
  | .error _ => (List.replicate size 0, true)

/-- C9: every connector read is total and swallows transport faults: on
any fault, read_bit returns False, read_word returns 0, batch_read_bits
returns size copies of False and batch_read_words size zeros, each
after triggering a reconnect; and each fault result is equal, as seen
by the caller, to the result of a successful read of genuinely
all-zero controller data of the same size. -/
theorem C9_reads_total_default (e : String) (size : Nat) :
    read_bit (.error e) = (false, true) ∧
    read_word (.error e) = (0, true) ∧
    batch_read_bits (.error e) size = (List.replicate size false, true) ∧
    batch_read_words (.error e) size = (List.replicate size 0, true) ∧
    (read_bit (.error e)).1 = (read_bit (.ok [0])).1 ∧
    (read_word (.error e)).1 = (read_word (.ok [0])).1 ∧
    (batch_read_bits (.error e) size).1 =
      (batch_read_bits (.ok (List.replicate size 0)) size).1 ∧
    (batch_read_words (.error e) size).1 =
      (batch_read_words (.ok (List.replicate size 0)) size).1 := by
  refine ⟨rfl, rfl, rfl, rfl, rfl, rfl, ?_, rfl⟩
  simp [batch_read_bits, List.map_replicate]

/-- Witness for C9 at a concrete fault message and window size 3. -/
theorem C9_reads_total_default_witness :
    read_bit (.error "socket fault") = (false, true) ∧
    batch_read_bits (.error "socket fault") 3 =
      ([false, false, false], true) ∧
    (batch_read_words (.error "socket fault") 3).1 =
      (batch_read_words (.ok [0, 0, 0]) 3).1 := by
  have h := C9_reads_total_default "socket fault" 3
  exact ⟨h.1, h.2.2.1, h.2.2.2.2.2.2.2⟩

/-!
Float codec (plc_read_float and plc_write_float in app.py).

A Python float written to the PLC is packed by struct.pack with format
of a little-endian 32-bit float and split by struct.unpack into two
16-bit words; we model the float by its IEEE-754 bit pattern, a Nat
below 2 ^ 32, so the split is low = bits mod 2 ^ 16 and
high = bits / 2 ^ 16, and reassembly of words a then b in pack order
is a + 2 ^ 16 * b.  struct.pack with two unsigned 16-bit fields raises
struct.error when a value is out of range, modelled by an error. -/

/-- struct.pack of two unsigned little-endian 16-bit words a then b
followed by struct.unpack as a little-endian 32-bit value: the
resulting bit pattern is a + 65536 * b; out-of-range inputs model a
raised struct.error. -/
def pack2 (a b : Int) : Except String Nat :=
  if 0 ≤ a ∧ a < 65536 ∧ 0 ≤ b ∧ b < 65536 then
    .ok (a.toNat + 65536 * b.toNat)
  else
    .error "struct.error"

/-- plc_read_float: for tag D802 read words D802 (low) then D803
(high) and pack them in that order; for tag D812 read D813 into the
variable named high and D812 into the one named low, and pack high
then low; any other tag raises ValueError.  The Bool component records
whether a connector-level reconnect was triggered. -/
def plc_read_float (t : Transport) (tag : String) :
    Except String Nat × Bool :=
  if tag = "D802" then
    let low := read_word (t.reg "D802")
    let high := read_word (t.reg "D803")
    (pack2 low.1 high.1, low.2 || high.2)
  else if tag = "D812" then
    let high := read_word (t.reg "D813")
    let low := read_word (t.reg "D812")
    (pack2 high.1 low.1, high.2 || low.2)
  else
    (.error ("Unknown float tag: " ++ tag), false)

/-- The two 16-bit words struct.unpack produces from the packed float
bits in plc_write_float: (low_word, high_word). -/
def plc_write_float_words (bits : Nat) : Int × Int :=
  ((bits % 65536 : Nat), (bits / 65536 % 65536 : Nat))

/-- Register contents after plc_write_float wrote a float with the
given bit pattern to tag D802: D802 holds the low word and D803 the
high word, and every other register read is irrelevant to decoding. -/
def regsAfterWriteD802 (bits : Nat) : Transport :=
  ⟨.error "unused", .error "unused", fun d =>
    if d = "D802" then .ok [(plc_write_float_words bits).1]
    else if d = "D803" then .ok [(plc_write_float_words bits).2]
    else .error "unused"⟩

/-- Register contents after plc_write_float wrote a float with the
given bit pattern to tag D812: despite the big-endian comment in the
source, the code writes D812 := low word and D813 := high word exactly
as the D802 branch does. -/
def regsAfterWriteD812 (bits : Nat) : Transport :=
  ⟨.error "unused", .error "unused", fun d =>
    if d = "D812" then .ok [(plc_write_float_words bits).1]
    else if d = "D813" then .ok [(plc_write_float_words bits).2]
    else .error "unused"⟩

/-- C1: writing a float and reading it back with the registers passing
the written words through unchanged should return the written value
for both float tags.  It does for D802, but not for D812: the writer
stores low to D812 and high to D813 while the reader packs the D813
word first, so the two words come back swapped.  At the bit pattern of
1.0 (0x3F800000 = 1065353216, words (0, 16256)) the decoder returns
bit pattern 16256 (a denormal around 2.3e-41) instead of 1065353216.
The writer's own branch comment announces a big-endian layout yet its
body is identical to the little-endian D802 branch, so the claim
matches the intent and the code is the slip. -/
theorem C1_float_roundtrip_broken_D812 :
    plc_read_float (regsAfterWriteD802 1065353216) "D802" =
      (.ok 1065353216, false) ∧
    plc_read_float (regsAfterWriteD812 1065353216) "D812" =
      (.ok 16256, false) ∧
    (16256 : Nat) ≠ 1065353216 := by
  refine ⟨rfl, rfl, by decide⟩

/-!
Connection state machine (PLCConnector.connect_with_retry and
PLCConnector.reconnect).

The outcome of each connection attempt is an oracle indexed by the
value of retry_count at the attempt; the result pairs the final
connector state with the number of attempts made.
-/

/-- Connection flag and retry counter of the connector. -/
structure ConnState where
  connected : Bool
  retry_count : Nat
deriving DecidableEq

/-- PLCConnector.connect_with_retry: while not connected and
retry_count below max_retries, attempt to connect; a successful
attempt sets connected and resets retry_count to 0, a failed attempt
increments retry_count.  The Nat component counts attempts made. -/
def connect_with_retry (maxR : Nat) (oracle : Nat → Bool)
    (s : ConnState) : ConnState × Nat :=
  if h : s.connected = false ∧ s.retry_count < maxR then
    if oracle s.retry_count then
      let r := connect_with_retry maxR oracle ⟨true, 0⟩
      (r.1, r.2 + 1)
    else
      let r := connect_with_retry maxR oracle ⟨false, s.retry_count + 1⟩
      (r.1, r.2 + 1)
  else
    (s, 0)
termination_by if s.connected then 0 else maxR - s.retry_count
decreasing_by
  all_goals simp_all
  all_goals omega

/-- PLCConnector.reconnect: best-effort close of the current client
(the close outcome, ok or error, is swallowed by the bare except),
clear connected, reset retry_count to 0 and re-run connect_with_retry;
the prior state is discarded entirely. -/
def reconnect (maxR : Nat) (oracle : Nat → Bool)
    (closeResult : Except String Unit) (_s : ConnState) : ConnState × Nat :=
  match closeResult with
  | .ok _ => connect_with_retry maxR oracle ⟨false, 0⟩
  | .error _ => connect_with_retry maxR oracle ⟨false, 0⟩

theorem connect_with_retry_connected (maxR : Nat) (oracle : Nat → Bool)
    (s : ConnState) (h : s.connected = true) :
    connect_with_retry maxR oracle s = (s, 0) := by
  rw [connect_with_retry]
  simp [h]

theorem connect_with_retry_attempts_le (maxR : Nat) (oracle : Nat → Bool)
    (s : ConnState) :
    (connect_with_retry maxR oracle s).2 ≤ maxR - s.retry_count := by
  have key : ∀ (n rc : Nat), maxR - rc ≤ n →
      (connect_with_retry maxR oracle ⟨false, rc⟩).2 ≤ maxR - rc := by
    intro n
    induction n with
    | zero =>
      intro rc hle
      rw [connect_with_retry]
      have : ¬ (rc < maxR) := by omega
      simp [this]
    | succ n ih =>
      intro rc hle
      rw [connect_with_retry]
      by_cases hlt : rc < maxR
      · by_cases ho : oracle rc = true
        · simp only [hlt, and_true, ↓reduceDIte, ho, if_true, true_and]
          rw [connect_with_retry_connected maxR oracle ⟨true, 0⟩ rfl]
          omega
        · have ho' : oracle rc = false := by
            cases h : oracle rc
            · rfl
            · exact absurd h ho
          simp only [hlt, and_true, ↓reduceDIte, ho', Bool.false_eq_true,
            if_false, true_and]
          have := ih (rc + 1) (by omega)
          omega
      · simp [hlt]
  cases hb : s.connected
  · obtain ⟨b, rc⟩ := s
    simp only at hb
    subst hb
    exact key (maxR - rc) rc (Nat.le_refl _)
  · rw [connect_with_retry_connected maxR oracle s hb]
    exact Nat.zero_le _

theorem connect_with_retry_all_fail (maxR : Nat) (oracle : Nat → Bool)
    (hfail : ∀ n, oracle n = false) (s : ConnState)
    (hs : s.connected = false) :
    (connect_with_retry maxR oracle s).1.connected = false := by
  have key : ∀ (n rc : Nat), maxR - rc ≤ n →
      (connect_with_retry maxR oracle ⟨false, rc⟩).1.connected = false := by
    intro n
    induction n with
    | zero =>
      intro rc hle
      rw [connect_with_retry]
      have : ¬ (rc < maxR) := by omega
      simp [this]
    | succ n ih =>
      intro rc hle
      rw [connect_with_retry]
      by_cases hlt : rc < maxR
      · simp only [hlt, and_true, ↓reduceDIte, hfail rc, Bool.false_eq_true,
          if_false, true_and]
        exact ih (rc + 1) (by omega)
      · simp [hlt]
  obtain ⟨b, rc⟩ := s
  simp only at hs
  subst hs
  exact key (maxR - rc) rc (Nat.le_refl _)

/-- C8: connect_with_retry makes at most max_retries attempts and, if
every attempt fails, leaves the connected flag False; reconnect
ignores the outcome of the best-effort close and, whatever the prior
state, re-runs connect_with_retry with the retry counter reset to
zero. -/
theorem C8_connect_retry_reconnect (maxR : Nat) (oracle : Nat → Bool)
    (s : ConnState) (c c2 : Except String Unit) :
    (connect_with_retry maxR oracle s).2 ≤ maxR ∧
    ((∀ n, oracle n = false) → s.connected = false →
      (connect_with_retry maxR oracle s).1.connected = false) ∧
    reconnect maxR oracle c s = reconnect maxR oracle c2 s ∧
    reconnect maxR oracle c s = connect_with_retry maxR oracle ⟨false, 0⟩ := by
  refine ⟨?_, ?_, ?_, ?_⟩
  · calc (connect_with_retry maxR oracle s).2
        ≤ maxR - s.retry_count := connect_with_retry_attempts_le maxR oracle s
      _ ≤ maxR := Nat.sub_le _ _
  · intro hfail hs
    exact connect_with_retry_all_fail maxR oracle hfail s hs
  · cases c <;> cases c2 <;> rfl
  · cases c <;> rfl

/-- Witness for C8 at max_retries = 2, an all-failing oracle, a
disconnected start state and both possible close outcomes. -/
theorem C8_connect_retry_reconnect_witness :
    (connect_with_retry 2 (fun _ => false) ⟨false, 0⟩).2 ≤ 2 ∧
    (connect_with_retry 2 (fun _ => false) ⟨false, 0⟩).1.connected = false ∧
    reconnect 2 (fun _ => false) (.ok ()) ⟨true, 1⟩ =
      reconnect 2 (fun _ => false) (.error "boom") ⟨true, 1⟩ := by
  have h := C8_connect_retry_reconnect 2 (fun _ => false) ⟨false, 0⟩
    (.ok ()) (.error "boom")
  have h2 := C8_connect_retry_reconnect 2 (fun _ => false) ⟨true, 1⟩
    (.ok ()) (.error "boom")
  exact ⟨h.1, h.2.1 (fun _ => rfl) rfl, h2.2.2.1⟩

/-!
One cycle of the polling loop (poll_plc in app.py).

The loop body is modelled as a pure function of the transport oracle
for that cycle and of the loop state (the last emitted maps and the
initial flag).  Python list indexing wraps negative indices and raises
IndexError outside [-len, len); the raised case feeds the except
branch of the loop, which requests a reconnect and skips emission.
Snapshot maps are association lists in registry order, which is how
the Python dict comprehensions build them, so list equality coincides
with dict equality; a float value is represented by its 32-bit
pattern, which identifies floats slightly more finely than Python ==
does (it separates 0.0 from -0.0 and equates no NaN with itself).
-/

/-- Python list indexing: a negative index counts from the end, an
index outside [-len, len) raises IndexError (modelled as none). -/
def pyIndex (l : List α) (i : Int) : Option α :=
  if 0 ≤ i then l.get? i.toNat
  else if (-i).toNat ≤ l.length then l.get? (l.length - (-i).toNat)
  else none

/-- Projection of the Bit window array into tag-keyed values,
bit_values[bit_indices[tag]] for tag in BIT_TAGS; none models a raised
IndexError. -/
def projectBits (bit_values : List Bool) :
    Option (List (String × Bool)) :=
  BIT_TAGS.mapM fun tag => (pyIndex bit_values (bitIndex tag)).map (tag, ·)

/-- Projection of the Word window array into tag-keyed values,
word_values[word_indices[tag]] for tag in WORD_TAGS. -/
def projectWords (word_values : List Int) :
    Option (List (String × Int)) :=
  WORD_TAGS.mapM fun tag => (pyIndex word_values (wordIndex tag)).map (tag, ·)

/-- One emitted plc_data payload: the complete bit, word and float
maps. -/
structure Snapshot where
  bits : List (String × Bool)
  words : List (String × Int)
  floats : List (String × Nat)
deriving DecidableEq

/-- Loop state of poll_plc: the last emitted maps and the initial
flag. -/
structure PollState where
  lastBits : List (String × Bool)
  lastWords : List (String × Int)
  lastFloats : List (String × Nat)
  initial : Bool
deriving DecidableEq

/-- Result of one loop iteration: the successor state, the snapshot
emitted this cycle if any, and whether any reconnect was requested. -/
structure PollResult where
  state : PollState
  emitted : Option Snapshot
  reconnect : Bool
deriving DecidableEq

/-- The change detector at the end of a successful cycle, lines
111-116 of app.py: emit when this is the first successful cycle since
startup or any map differs from the last emitted one; on emission the
new maps replace the last emitted snapshot and the initial flag is
cleared. -/
def detectStep (s : PollState) (bits : List (String × Bool))
    (words : List (String × Int)) (floats : List (String × Nat)) :
    PollState × Option Snapshot :=
  if s.initial || (bits != s.lastBits) || (words != s.lastWords)
      || (floats != s.lastFloats) then
    (⟨bits, words, floats, false⟩, some ⟨bits, words, floats⟩)
  else
    (s, none)

/-- One iteration of the poll_plc while loop: batch-read both windows
through the connector (faults are swallowed there into default
arrays), project the windows into tag maps, decode the two float
tags, then run the change detector.  A raised IndexError or
struct.error lands in the except branch: no emission, a reconnect
request, and the loop state is left unchanged for the next tick. -/
def pollCycle (t : Transport) (s : PollState) : PollResult :=
  let bv := batch_read_bits t.bits bit_size
  let wv := batch_read_words t.words word_size
  match projectBits bv.1, projectWords wv.1 with
  | some bits, some words =>
    let f802 := plc_read_float t "D802"
    let f812 := plc_read_float t "D812"
    match f802.1, f812.1 with
    | .ok v802, .ok v812 =>
      let floats := [("D802", v802), ("D812", v812)]
      let det := detectStep s bits words floats
      ⟨det.1, det.2, bv.2 || wv.2 || f802.2 || f812.2⟩
    | _, _ => ⟨s, none, true⟩
  | _, _ => ⟨s, none, true⟩

/-- The bit map a cycle produces from an all-default (all-False)
window array. -/
def defaultBitsMap : List (String × Bool) :=
  BIT_TAGS.map fun tag => (tag, false)

/-- The word map a cycle produces from an all-default (all-zero)
window array. -/
def defaultWordsMap : List (String × Int) :=
  WORD_TAGS.map fun tag => (tag, 0)

/-- The float map a cycle produces when every register read defaults
to 0. -/
def defaultFloatsMap : List (String × Nat) :=
  [("D802", 0), ("D812", 0)]

theorem projectBits_default :
    projectBits (List.replicate bit_size false) = some defaultBitsMap := by
  rfl

theorem projectWords_default :
    projectWords (List.replicate word_size 0) = some defaultWordsMap := by
  rfl

/-- A cycle oracle in which the batch bit read raises a transport
exception while the batch word read and the float register reads
succeed with quiescent data. -/
def faultyBitTransport : Transport :=
  ⟨.error "connection reset", .ok (List.replicate word_size 0),
    fun _ => .ok [0]⟩

/-- A cycle oracle in which every transport call raises. -/
def allErrTransport : Transport :=
  ⟨.error "socket closed", .error "socket closed",
    fun _ => .error "socket closed"⟩

/-- The loop state at startup: empty caches, initial flag set. -/
def startState : PollState := ⟨[], [], [], true⟩

/-- C2 counterexample: in the very first cycle, a transport fault
during the batch bit read does not suppress emission.  The connector
swallows the fault and returns an all-False window, the cycle runs to
completion and broadcasts a snapshot built from the defaults.  The
claim that no snapshot is emitted in a cycle whose batch read
faulted is therefore false. -/
theorem C2_counterexample_fault_still_emits :
    (pollCycle faultyBitTransport startState).emitted.isSome = true ∧
    (pollCycle faultyBitTransport startState).reconnect = true := by
  exact ⟨rfl, rfl⟩

/-- C2 amended: when the batch reads (and the float register reads)
fault, the faults are absorbed inside the connector, which substitutes
all-False and all-zero windows and requests a reconnect; the cycle
does not crash and, far from skipping emission, broadcasts the
default-valued snapshot whenever the detector fires (in particular on
the first cycle, shown here); the loop state advances and the loop
reaches the next tick. -/
theorem C2_fault_cycle_emits_defaults (t : Transport) (s : PollState)
    (eb ew : String) (er : String → String)
    (hb : t.bits = .error eb) (hw : t.words = .error ew)
    (hr : ∀ d, t.reg d = .error (er d)) (hi : s.initial = true) :
    pollCycle t s =
      ⟨⟨defaultBitsMap, defaultWordsMap, defaultFloatsMap, false⟩,
        some ⟨defaultBitsMap, defaultWordsMap, defaultFloatsMap⟩, true⟩ := by
  unfold pollCycle
  rw [hb, hw]
  simp only [batch_read_bits, batch_read_words]
  rw [projectBits_default, projectWords_default]
  simp only [plc_read_float, hr, read_word, pack2]
  simp [detectStep, hi, defaultFloatsMap]

/-- Witness for the amended C2 at the all-faulting oracle and the
startup state. -/
theorem C2_fault_cycle_emits_defaults_witness :
    pollCycle allErrTransport startState =
      ⟨⟨defaultBitsMap, defaultWordsMap, defaultFloatsMap, false⟩,
        some ⟨defaultBitsMap, defaultWordsMap, defaultFloatsMap⟩, true⟩ :=
  C2_fault_cycle_emits_defaults allErrTransport startState
    "socket closed" "socket closed" (fun _ => "socket closed")
    rfl rfl (fun _ => rfl) rfl

/-- C7: the change detector of the polling loop suppresses a cycle
whose three maps all equal the last emitted ones (no broadcast, state
unchanged), and broadcasts exactly one complete snapshot, atomically
replacing the last emitted maps and clearing the initial flag,
whenever this is the first successful cycle or any map differs. -/
theorem C7_change_detector (s : PollState) (b : List (String × Bool))
    (w : List (String × Int)) (f : List (String × Nat)) :
    (s.initial = false → b = s.lastBits → w = s.lastWords →
      f = s.lastFloats → detectStep s b w f = (s, none)) ∧
    (s.initial = true ∨ b ≠ s.lastBits ∨ w ≠ s.lastWords ∨
        f ≠ s.lastFloats →
      detectStep s b w f = (⟨b, w, f, false⟩, some ⟨b, w, f⟩)) := by
  constructor
  · intro hi hb hw hf
    subst hb; subst hw; subst hf
    simp [detectStep, hi]
  · intro h
    rcases h with hi | hb | hw | hf <;> simp [detectStep, *]

/-- Witness for C7: a state past startup with a small last emitted
snapshot; an identical cycle is suppressed and a cycle differing in
one bit value is broadcast with the full new snapshot replacing the
state. -/
theorem C7_change_detector_witness :
    detectStep ⟨[("M3", false)], [("D302", 7)], [("D802", 0)], false⟩
        [("M3", false)] [("D302", 7)] [("D802", 0)] =
      (⟨[("M3", false)], [("D302", 7)], [("D802", 0)], false⟩, none) ∧
    detectStep ⟨[("M3", false)], [("D302", 7)], [("D802", 0)], false⟩
        [("M3", true)] [("D302", 7)] [("D802", 0)] =
      (⟨[("M3", true)], [("D302", 7)], [("D802", 0)], false⟩,
        some ⟨[("M3", true)], [("D302", 7)], [("D802", 0)]⟩) := by
  constructor
  · exact (C7_change_detector ⟨[("M3", false)], [("D302", 7)], [("D802", 0)],
      false⟩ [("M3", false)] [("D302", 7)] [("D802", 0)]).1 rfl rfl rfl rfl
  · exact (C7_change_detector ⟨[("M3", false)], [("D302", 7)], [("D802", 0)],
      false⟩ [("M3", true)] [("D302", 7)] [("D802", 0)]).2
      (Or.inr (Or.inl (by decide)))

/-!
Socket write handlers (handle_write_word, handle_write_float,
handle_set_bit, handle_toggle_bit in app.py).

Payload values are modelled by PyVal; a Python float is again carried
as its IEEE-754 32-bit pattern.  Each handler returns the response it
emits together with the list of transport-session read/write
operations it performed, in order.  The Python builtins float() and
int() are modelled only on the value shapes the registry and the
claims exercise: conversion of decimal strings or of ints to IEEE
patterns is left out (no theorem below depends on it), and a
conversion modelled as none corresponds to the builtin raising, which
the handlers catch and turn into an error response without touching
the transport.
-/

/-- A Python value arriving in an event payload. -/
inductive PyVal
  | pyBool (b : Bool)
  | pyInt (n : Int)
  | pyStr (s : String)
  | pyFloat (bits : Nat)
deriving DecidableEq

/-- Python truthiness, bool(v): False, 0, 0.0, -0.0 and the empty
string are falsy (2147483648 is the pattern of -0.0). -/
def truthy : PyVal → Bool
  | .pyBool b => b
  | .pyInt n => decide (n ≠ 0)
  | .pyStr s => decide (s ≠ "")
  | .pyFloat bits => decide (bits ≠ 0 ∧ bits ≠ 2147483648)

/-- Python int(v) on the modelled shapes; none models a raised
conversion error (float truncation is not modelled, see above). -/
def intCoerce : PyVal → Option Int
  | .pyInt n => some n
  | .pyBool b => some (if b then 1 else 0)
  | .pyStr _ => none
  | .pyFloat _ => none

/-- Python float(v) on the modelled shapes; float(True) is 1.0, with
pattern 1065353216. -/
def floatCoerce : PyVal → Option Nat
  | .pyFloat bits => some bits
  | .pyBool b => some (if b then 1065353216 else 0)
  | .pyInt _ => none
  | .pyStr _ => none

/-- One read or write issued against the PLCConnector by a handler. -/
inductive PlcOp
  | readBit (dev : String)
  | writeBit (dev : String) (value : Bool)
  | writeWord (dev : String) (value : Int)
deriving DecidableEq

/-- A response emitted back to the requesting viewer. -/
structure Response where
  event : String
  status : String
  tag : Option String
  value : Option PyVal
  message : Option String
deriving DecidableEq

/-- plc_write_float as called by the handlers: split the float bits
into low and high words and write the two constituent registers (for
both tags the low word goes to the lower address, exactly as the
source does); an unknown tag raises ValueError.  The Python function
ends without a return statement, so the value of the call is None,
modelled by the Option Nat component, which is always none. -/
def plc_write_float_call (tag : String) (bits : Nat) :
    Except String (List PlcOp × Option Nat) :=
  let lw := plc_write_float_words bits
  if tag = "D802" then
    .ok ([.writeWord "D802" lw.1, .writeWord "D803" lw.2], none)
  else if tag = "D812" then
    .ok ([.writeWord "D812" lw.1, .writeWord "D813" lw.2], none)
  else
    .error ("Unknown float tag: " ++ tag)

/-- handle_write_word: missing tag or value is rejected; for the two
designated float tags the value is coerced to float and written via
plc_write_float, and the response reports success only if the call
returned a non-None confirmation (it never does); any other tag is
passed straight to plc.write_word after int coercion with no registry
validation at all. -/
def handle_write_word (tag? : Option String) (value? : Option PyVal) :
    Response × List PlcOp :=
  match tag?, value? with
  | some tag, some value =>
    if tag = "D802" ∨ tag = "D812" then
      match floatCoerce value with
      | some bits =>
        match plc_write_float_call tag bits with
        | .ok (ops, confirmed) =>
          match confirmed with
          | some v =>
            (⟨"write_response", "success", some tag, some (.pyFloat v),
              none⟩, ops)
          | none =>
            (⟨"write_response", "error", some tag, none,
              some "Write succeeded but confirm failed"⟩, ops)
        | .error msg =>
          (⟨"write_response", "error", some tag, none, some msg⟩, [])
      | none =>
        (⟨"write_response", "error", some tag, none,
          some "could not convert value to float"⟩, [])
    else
      match intCoerce value with
      | some n =>
        (⟨"write_response", "success", some tag, some (.pyInt n), none⟩,
          [.writeWord tag n])
      | none =>
        (⟨"write_response", "error", some tag, none,
          some "invalid literal for int"⟩, [])
  | _, _ =>
    (⟨"write_response", "error", none, none, some "Missing tag or value"⟩,
      [])

/-- handle_write_float: missing tag or value is rejected; a tag other
than the two designated float tags is rejected before any transport
access; otherwise the value is coerced and written via
plc_write_float and the response echoes the coerced float. -/
def handle_write_float (tag? : Option String) (value? : Option PyVal) :
    Response × List PlcOp :=
  match tag?, value? with
  | some tag, some value =>
    if tag = "D802" ∨ tag = "D812" then
      match floatCoerce value with
      | some bits =>
        match plc_write_float_call tag bits with
        | .ok (ops, _) =>
          (⟨"write_float_response", "success", some tag,
            some (.pyFloat bits), none⟩, ops)
        | .error msg =>
          (⟨"write_float_response", "error", some tag, none, some msg⟩, [])
      | none =>
        (⟨"write_float_response", "error", some tag, none,
          some "could not convert value to float"⟩, [])
    else
      (⟨"write_float_response", "error", some tag, none,
        some ("Invalid float tag: " ++ tag)⟩, [])
  | _, _ =>
    (⟨"write_float_response", "error", none, none,
      some "Missing tag or value"⟩, [])

/-- An inbound set_bit or toggle_bit payload: a dict with optional
tag and value entries, or a bare value taken as the tag itself. -/
inductive Payload
  | dict (tag : Option String) (value : Option PyVal)
  | raw (s : String)
deriving DecidableEq

/-- handle_set_bit: a non-dict payload is itself the tag with value
defaulting to True; a dict payload defaults a missing value to True;
a non-boolean value is coerced with bool(); an unregistered tag is
rejected before any transport access, otherwise the coerced boolean
is written. -/
def handle_set_bit (p : Payload) : Response × List PlcOp :=
  let tv : Option String × PyVal :=
    match p with
    | .dict t v => (t, v.getD (.pyBool true))
    | .raw s => (some s, .pyBool true)
  let value := truthy tv.2
  match tv.1 with
  | some tag =>
    if tag ∈ BIT_TAGS then
      (⟨"set_bit_response", "success", some tag, some (.pyBool value),
        none⟩, [.writeBit tag value])
    else
      (⟨"set_bit_response", "error", some tag, none,
        some ("Invalid tag: " ++ tag)⟩, [])
  | none =>
    (⟨"set_bit_response", "error", none, none, some "Invalid tag: None"⟩,
      [])

/-- handle_toggle_bit: the tag is the dict entry when present,
otherwise the payload itself (a tag-less dict payload itself becomes
the tag; being unregistered it is always rejected, modelled by none);
an unregistered tag is rejected before any transport access,
otherwise the current value is read and its negation written. -/
def handle_toggle_bit (current : String → Bool) (p : Payload) :
    Response × List PlcOp :=
  let tag? : Option String :=
    match p with
    | .dict (some t) _ => some t
    | .dict none _ => none
    | .raw s => some s
  match tag? with
  | some tag =>
    if tag ∈ BIT_TAGS then
      (⟨"toggle_response", "success", some tag,
        some (.pyBool (!current tag)), none⟩,
        [.readBit tag, .writeBit tag (!current tag)])
    else
      (⟨"toggle_response", "error", some tag, none,
        some ("Invalid tag: " ++ tag)⟩, [])
  | none =>
    (⟨"toggle_response", "error", none, none, some "Invalid tag"⟩, [])

/-- C3 counterexample: handle_write_word performs no registry
validation.  The tag D999 is registered nowhere, yet the request
writes it through the transport session and the handler answers
success, not an error. -/
theorem C3_counterexample_write_word_skips_validation :
    "D999" ∉ WORD_TAGS ∧ "D999" ∉ BIT_TAGS ∧
    ("D999" : String) ≠ "D802" ∧ ("D999" : String) ≠ "D812" ∧
    (handle_write_word (some "D999") (some (.pyInt 5))).2 =
      [.writeWord "D999" 5] ∧
    (handle_write_word (some "D999") (some (.pyInt 5))).1.status =
      "success" := by
  exact ⟨by decide, by decide, by decide, by decide, rfl, rfl⟩

/-- C3 amended: toggle_bit, set_bit and write_float reject a request
naming an unregistered tag without any transport-session operation and
with an error response carrying that tag; write_word, however,
validates nothing: any tag outside the registry (hence not a float
tag) with an int-coercible value is written through the transport and
answered with success. -/
theorem C3_unknown_tag_validation (tag : String) (v : PyVal) (fb : Nat)
    (n : Int) (cur : String → Bool)
    (hbit : tag ∉ BIT_TAGS) (hword : tag ∉ WORD_TAGS) :
    (handle_set_bit (.dict (some tag) (some v))).2 = [] ∧
    (handle_set_bit (.dict (some tag) (some v))).1.status = "error" ∧
    (handle_set_bit (.dict (some tag) (some v))).1.tag = some tag ∧
    (handle_toggle_bit cur (.dict (some tag) none)).2 = [] ∧
    (handle_toggle_bit cur (.dict (some tag) none)).1.status = "error" ∧
    (handle_toggle_bit cur (.dict (some tag) none)).1.tag = some tag ∧
    (handle_write_float (some tag) (some (.pyFloat fb))).2 = [] ∧
    (handle_write_float (some tag) (some (.pyFloat fb))).1.status =
      "error" ∧
    (handle_write_float (some tag) (some (.pyFloat fb))).1.tag =
      some tag ∧
    (handle_write_word (some tag) (some (.pyInt n))).2 =
      [.writeWord tag n] ∧
    (handle_write_word (some tag) (some (.pyInt n))).1.status =
      "success" := by
  have h802 : tag ≠ "D802" := by
    intro h
    exact hword (h ▸ (by decide : ("D802" : String) ∈ WORD_TAGS))
  have h812 : tag ≠ "D812" := by
    intro h
    exact hword (h ▸ (by decide : ("D812" : String) ∈ WORD_TAGS))
  have hfl : ¬ (tag = "D802" ∨ tag = "D812") := by
    rintro (h | h)
    · exact h802 h
    · exact h812 h
  refine ⟨?_, ?_, ?_, ?_, ?_, ?_, ?_, ?_, ?_, ?_, ?_⟩ <;>
    simp [handle_set_bit, handle_toggle_bit, handle_write_float,
      handle_write_word, hbit, hfl, intCoerce]

/-- Witness for the amended C3 at the unregistered tag D999. -/
theorem C3_unknown_tag_validation_witness :
    (handle_set_bit (.dict (some "D999") (some (.pyBool true)))).2 = [] ∧
    (handle_toggle_bit (fun _ => false) (.dict (some "D999") none)).1.status =
      "error" ∧
    (handle_write_float (some "D999") (some (.pyFloat 0))).1.tag =
      some "D999" ∧
    (handle_write_word (some "D999") (some (.pyInt 5))).1.status =
      "success" := by
  have h := C3_unknown_tag_validation "D999" (.pyBool true) 0 5
    (fun _ => false) (by decide) (by decide)
  exact ⟨h.1, h.2.2.2.2.1, h.2.2.2.2.2.2.2.2.1, h.2.2.2.2.2.2.2.2.2.2⟩

/-- C6: a write_word request for float tag D802 with the float value
1.0 (pattern 1065353216) encodes and writes both registers without
fault, but the handler then answers with an error response reading
"Write succeeded but confirm failed" instead of the claimed success
response carrying the coerced value: plc_write_float has no return
statement, so the confirmation the handler tests for is always None
and the success branch is unreachable.  The claim matches both the
spec and the obvious intent of the confirmation check; the missing
return in plc_write_float is the slip. -/
theorem C6_float_write_always_reports_confirm_failure :
    handle_write_word (some "D802") (some (.pyFloat 1065353216)) =
      (⟨"write_response", "error", some "D802", none,
        some "Write succeeded but confirm failed"⟩,
       [.writeWord "D802" 0, .writeWord "D803" 16256]) ∧
    (handle_write_word (some "D802")
      (some (.pyFloat 1065353216))).1.status ≠ "success" := by
  exact ⟨rfl, by decide⟩

/-- C10: in handle_set_bit a non-dict payload is itself taken as the
tag with the value defaulting to True, a dict payload missing the
value entry defaults it to True, and a non-boolean value is coerced
by truthiness before the write: 0 writes False, a non-empty string
writes True, the empty string writes False, and an arbitrary integer
writes its non-zeroness. -/
theorem C10_set_bit_payload_defaults (s str : String) (k : Int)
    (hs : s ∈ BIT_TAGS) (hstr : str ≠ "") :
    handle_set_bit (.raw s) =
      (⟨"set_bit_response", "success", some s, some (.pyBool true), none⟩,
        [.writeBit s true]) ∧
    handle_set_bit (.dict (some s) none) =
      (⟨"set_bit_response", "success", some s, some (.pyBool true), none⟩,
        [.writeBit s true]) ∧
    handle_set_bit (.dict (some s) (some (.pyInt 0))) =
      (⟨"set_bit_response", "success", some s, some (.pyBool false), none⟩,
        [.writeBit s false]) ∧
    handle_set_bit (.dict (some s) (some (.pyStr str))) =
      (⟨"set_bit_response", "success", some s, some (.pyBool true), none⟩,
        [.writeBit s true]) ∧
    handle_set_bit (.dict (some s) (some (.pyStr ""))) =
      (⟨"set_bit_response", "success", some s, some (.pyBool false), none⟩,
        [.writeBit s false]) ∧
    handle_set_bit (.dict (some s) (some (.pyInt k))) =
      (⟨"set_bit_response", "success", some s,
        some (.pyBool (decide (k ≠ 0))), none⟩,
        [.writeBit s (decide (k ≠ 0))]) := by
  refine ⟨?_, ?_, ?_, ?_, ?_, ?_⟩ <;>
    simp [handle_set_bit, truthy, hs, hstr]

/-- Witness for C10 at the registered tag M13, the non-empty string
"x" and the integer 2. -/
theorem C10_set_bit_payload_defaults_witness :
    handle_set_bit (.raw "M13") =
      (⟨"set_bit_response", "success", some "M13", some (.pyBool true),
        none⟩, [.writeBit "M13" true]) ∧
    handle_set_bit (.dict (some "M13") (some (.pyInt 0))) =
      (⟨"set_bit_response", "success", some "M13", some (.pyBool false),
        none⟩, [.writeBit "M13" false]) ∧
    handle_set_bit (.dict (some "M13") (some (.pyStr "x"))) =
      (⟨"set_bit_response", "success", some "M13", some (.pyBool true),
        none⟩, [.writeBit "M13" true]) := by
  have h := C10_set_bit_payload_defaults "M13" "x" 2 (by decide) (by decide)
  exact ⟨h.1, h.2.2.1, h.2.2.2.1⟩

end SpPlcHmi
